import Mathlib

/-!
Verification of the `pageobj` page-object library (`src/pageobject/`): a
shallow embedding of the element value-adapter (`PageElement._set_element`),
the element cache (`cache.py`), the field-descriptor read/write paths
(`PageElement`, `PageElements`, `PageElementTemplate`, `PageElementDict`),
and the table engine (`PageTable.query` / `PageTable.apply`), together with
theorems settling the specified properties.
-/

namespace PageObj

/-! ## Value adapter: `PageElement._set_element` (pageobject.py lines 291-310)

A checkbox or radio element is observed through its `is_selected()` state;
`click()` toggles a checkbox and selects a radio.  `_set_element` dispatches
on the element type:
  - checkbox: `e.click() if e.is_selected() is not v else None`
  - radio:    `e.click() if v else None`
We model the selected-state as a `Bool` and return the new state together
with the number of clicks performed. -/

/-- Clicking a checkbox toggles its selected state. -/
def clickCheckbox (s : Bool) : Bool := !s

/-- `_set_element` on `<input type="checkbox">`: click iff the current
selected state differs from the desired value `v`.  Returns
(new selected state, number of clicks). -/
def set_element_checkbox (s v : Bool) : Bool × Nat :=
  if s ≠ v then (clickCheckbox s, 1) else (s, 0)

/-- `_set_element` on `<input type="radio">`: click iff `v` is truthy
(clicking a radio selects it).  Returns (new selected state, clicks). -/
def set_element_radio (s v : Bool) : Bool × Nat :=
  if v then (true, 1) else (s, 0)

/-- Two consecutive checkbox writes of the same value `v`, starting from
selected-state `s`: final state and total click count. -/
def setCheckboxTwice (s v : Bool) : Bool × Nat :=
  let r1 := set_element_checkbox s v
  let r2 := set_element_checkbox r1.1 v
  (r2.1, r1.2 + r2.2)

/-! ## Table engine: `PageTable.query` and `PageTable.apply`
(pageobject.py lines 1076-1137)

Rows are fetched by `_all_rows()`, each row is converted through
`_row_component`, and a row matches when the condition dict is empty or all
expanded conditions hold on the converted row.  `query(once=True)` returns
`result[0]` as soon as `result` is non-empty; at the end it returns `None`
if `once` and no match, else the list.  `apply` invokes the action on each
matching row; its `once` break tests the `result` list, which it never
populates. -/

/-- Result of `PageTable.query`: either a single optional row (`once=True`)
or a list of rows (`once=False`). -/
inductive QueryResult (ρ : Type) where
  | one : Option ρ → QueryResult ρ
  | many : List ρ → QueryResult ρ
deriving DecidableEq, Repr

/-- `not conditions or all(cond(...) for ...)`: a row matches when the
(expanded) condition list is empty or every condition holds. -/
def matchesRow {ρ : Type} (conds : List (ρ → Bool)) (r : ρ) : Bool :=
  conds.isEmpty || conds.all (fun c => c r)

/-- The loop of `PageTable.query`: `raw` are the remaining raw rows,
`result` the accumulated matches.  Inside the loop the raw row is converted
by `_row_component` (`conv`); if the converted row matches it is appended;
`if result and once: return result[0]`; after the loop
`return None if once and not result else result`. -/
def queryLoop {σ ρ : Type} (once : Bool) (conv : σ → ρ) (conds : List (ρ → Bool)) :
    List σ → List ρ → QueryResult ρ
  | [], result =>
      if once && result.isEmpty then QueryResult.one none else QueryResult.many result
  | r :: rs, result =>
      let row := conv r
      let result' := if matchesRow conds row then result ++ [row] else result
      if !result'.isEmpty && once then QueryResult.one result'.head?
      else queryLoop once conv conds rs result'

/-- `PageTable.query(once, **conditions)` over the fetched raw rows. -/
def PageTable.query {σ ρ : Type} (once : Bool) (conv : σ → ρ) (conds : List (ρ → Bool))
    (rows : List σ) : QueryResult ρ :=
  queryLoop once conv conds rows []

/-- The loop of `PageTable.apply`: invokes the action on each matching
converted row (we record the invocation trace in `invoked`), while `result`
is the local list the source initialises to `[]` and never appends to;
`if result and once: break` tests that list. -/
def applyLoop {σ ρ : Type} (once : Bool) (conv : σ → ρ) (conds : List (ρ → Bool)) :
    List σ → List ρ → List ρ → List ρ
  | [], _result, invoked => invoked
  | r :: rs, result, invoked =>
      let row := conv r
      let invoked' := if matchesRow conds row then invoked ++ [row] else invoked
      if !result.isEmpty && once then invoked'
      else applyLoop once conv conds rs result invoked'

/-- `PageTable.apply(action, once, **conditions)`: returns the list of rows
the action was invoked on, in order. -/
def PageTable.apply {σ ρ : Type} (once : Bool) (conv : σ → ρ) (conds : List (ρ → Bool))
    (rows : List σ) : List ρ :=
  applyLoop once conv conds rows [] []

/-! ## Element cache: `cache.py`

A live element handle is observed through `is_enabled()` / `is_displayed()`;
a detached handle raises `StaleElementReferenceException` when probed.
`CachedElement.is_stale` first compares the context hash; then, inside a
`try`, probes every stored handle (a single handle, a list, or a dict whose
values are a handle or a list of handles).  The `except` turns a probe of
any detached handle into `True`.  In the dict branch the source assigns
`stale = ...` afresh on every dict value, so the final value reflects only
the last value probed. -/

/-- A live element handle as observed by the cache's liveness probe. -/
structure Handle where
  enabled : Bool
  displayed : Bool
  detached : Bool
deriving DecidableEq, Repr

/-- `not e.is_enabled() or not e.is_displayed()` for a non-detached handle. -/
def Handle.probeStale (h : Handle) : Bool := !h.enabled || !h.displayed

/-- A value of the dict form of cached elements: either a single
`WebElement` or a list of them. -/
inductive DictVal where
  | one : Handle → DictVal
  | many : List Handle → DictVal
deriving DecidableEq, Repr

/-- The probe result of one dict value (the value `stale` is assigned in
the dict branch of `is_stale` for that key). -/
def DictVal.probeStale : DictVal → Bool
  | .one h => h.probeStale
  | .many hs => hs.any Handle.probeStale

/-- The data structure stored in one cache entry: a single element
(`PageElement`/`PageElementTemplate`), a list (`PageElements`), or a dict
(`PageElementDict`). -/
inductive CacheElems where
  | single : Handle → CacheElems
  | list : List Handle → CacheElems
  | dict : List (String × DictVal) → CacheElems
deriving DecidableEq, Repr

/-- Whether the liveness probe touches a detached handle anywhere in the
stored structure (every handle has `is_enabled()` called on it, so a
detached handle anywhere raises `StaleElementReferenceException`). -/
def CacheElems.anyDetached : CacheElems → Bool
  | .single h => h.detached
  | .list hs => hs.any (·.detached)
  | .dict kvs => kvs.any (fun kv =>
      match kv.2 with
      | .one h => h.detached
      | .many hs => hs.any (·.detached))

/-- `CachedElement`: the stored elements plus the context hash captured at
write time. -/
structure CachedElement where
  elements : CacheElems
  context_hash : Int
deriving DecidableEq, Repr

/-- `CachedElement.is_stale(context_hash)` (cache.py lines 14-41): hash
mismatch is stale; a detached handle raises and is stale; otherwise the
single/list branches combine all handles while the dict branch re-assigns
`stale` per value, keeping only the last value's probe (or `False` for an
empty dict). -/
def CachedElement.is_stale (ce : CachedElement) (context_hash : Int) : Bool :=
  if context_hash ≠ ce.context_hash then true
  else if ce.elements.anyDetached then true
  else
    match ce.elements with
    | .single h => h.probeStale
    | .list hs => hs.any Handle.probeStale
    | .dict kvs => kvs.foldl (fun _ kv => kv.2.probeStale) false

/-- Cache key: `(context_id, selector)`, where `context_id` is `None` for a
page context and the selector is the `(by, locator)` pair. -/
abbrev CacheKey := Option Nat × (String × String)

/-- `PageElementCache` state: the `<html>` element id captured at
construction or last reset, and the entry map (as an association list). -/
structure PageElementCache where
  current_page_id : Int
  cache : List (CacheKey × CachedElement)
deriving DecidableEq, Repr

/-- Dict lookup `self._cache.get((context_id, selector), None)`. -/
def cacheLookup (key : CacheKey) : List (CacheKey × CachedElement) → Option CachedElement
  | [] => none
  | kv :: rest => if kv.1 = key then some kv.2 else cacheLookup key rest

/-- `PageElementCache.remove`: `self._cache.pop((context_id, selector), None)`. -/
def PageElementCache.remove (c : PageElementCache) (key : CacheKey) : PageElementCache :=
  { c with cache := c.cache.filter (fun kv => kv.1 ≠ key) }

/-- Dict assignment `self._cache[key] = ce` (overwrite or append). -/
def cacheInsert (key : CacheKey) (ce : CachedElement)
    (m : List (CacheKey × CachedElement)) : List (CacheKey × CachedElement) :=
  if m.any (fun kv => kv.1 = key) then
    m.map (fun kv => if kv.1 = key then (key, ce) else kv)
  else m ++ [(key, ce)]

/-- `PageElementCache.page_stale`: the freshly observed `<html>` element id
differs from the one captured at construction/last reset.  The live
observation is passed in as `observed_id`. -/
def PageElementCache.page_stale (c : PageElementCache) (observed_id : Int) : Bool :=
  observed_id ≠ c.current_page_id

/-- `PageElementCache.reset`: record the newest page id and clear the map. -/
def PageElementCache.reset (_c : PageElementCache) (observed_id : Int) : PageElementCache :=
  { current_page_id := observed_id, cache := [] }

/-- `PageElementCache.read` (cache.py lines 68-86): page-stale check first
(reset and miss), then entry lookup, then the entry-level `is_stale` check
(evict and miss), else hit.  Returns the optional hit and the new cache
state. -/
def PageElementCache.read (c : PageElementCache) (observed_id : Int) (key : CacheKey)
    (context_hash : Int) : Option CacheElems × PageElementCache :=
  if c.page_stale observed_id then (none, c.reset observed_id)
  else
    match cacheLookup key c.cache with
    | none => (none, c)
    | some ce =>
        if ce.is_stale context_hash then (none, c.remove key)
        else (some ce.elements, c)

/-- `PageElementCache.write` (cache.py lines 53-66): page-stale check first
(reset), then store the entry with the hash captured at write time. -/
def PageElementCache.write (c : PageElementCache) (observed_id : Int) (key : CacheKey)
    (context_hash : Int) (elements : CacheElems) : PageElementCache :=
  let c' := if c.page_stale observed_id then c.reset observed_id else c
  { c' with cache := cacheInsert key ⟨elements, context_hash⟩ c'.cache }

/-! ## Field descriptors: read/write paths (pageobject.py)

Resolution (`_find_element` / `_find_elements`) can fail with a
`TimeoutException`, a `NoSuchElementException`, or any other driver-level
failure; we model the outcome as `Except FindErr`.  The read entrances wrap
everything in `try/except Exception` (`PageElement.__get__` returns `None`,
`PageElements.__get__` returns `[]`, `PageElementTemplate._fetch_element`
returns `None`); the write entrances have no handler and propagate. -/

/-- The failure taxonomy of element resolution. -/
inductive FindErr where
  | timeout
  | notFound
  | driverFailure
deriving DecidableEq, Repr

/-- `PageElement.__get__` (lines 103-116): resolve, convert, and return;
any exception during resolution yields `None`.  `convert` is the (total)
`_convert_element` step. -/
def pageElement_get {V : Type} (find : Except FindErr Handle) (convert : Handle → V) :
    Option V :=
  match find with
  | .ok h => some (convert h)
  | .error _ => none

/-- `PageElementTemplate._fetch_element` (lines 392-413): after solidifying
the locator the body is the same resolve-convert under `try/except`,
returning `None` on failure. -/
def pageElementTemplate_get {V : Type} (find : Except FindErr Handle) (convert : Handle → V) :
    Option V :=
  match find with
  | .ok h => some (convert h)
  | .error _ => none

/-- `PageElement.__set__` (lines 118-126): resolve and assign with no
exception handler; a resolution failure propagates to the caller.  The
result records the handle/value pair the assignment acted on. -/
def pageElement_set {α : Type} (find : Except FindErr Handle) (v : α) :
    Except FindErr (Handle × α) :=
  match find with
  | .ok h => .ok (h, v)
  | .error e => .error e

/-- `PageElements.__get__` (lines 324-343): resolve the array and convert
each element; any exception yields `[]`. -/
def pageElements_get {V : Type} (find : Except FindErr (List Handle)) (convert : Handle → V) :
    List V :=
  match find with
  | .ok hs => hs.map convert
  | .error _ => []

/-! ### `PageElements.__set__` (lines 345-377)

The accepted value shapes mirror Python's `type(value)` dispatch:
`list`/`tuple` are zipped with the elements; `dict` iterates items with
`int(k)` conversion (`ValueError` skipped) and `elements[index]` indexing
(`IndexError` skipped, Python negative indices wrap); a scalar whose type
is exactly `int` or `str` broadcasts; anything else (including `bool` and
`float`) raises `ValueError`. -/

/-- A Python dict key as used in a Multi-field write payload. -/
inductive PyKey where
  | kint : Int → PyKey
  | kstr : String → PyKey
  | kbool : Bool → PyKey
deriving DecidableEq, Repr

/-- `int(k)`: identity on `int`, `0`/`1` on `bool`, numeric parse on `str`
(raising `ValueError`, i.e. `none`, on a non-numeric string). -/
def PyKey.toInt : PyKey → Option Int
  | .kint i => some i
  | .kstr s => s.toInt?
  | .kbool b => some (if b then 1 else 0)

/-- Python sequence indexing `elements[i]` for a list of length `n`:
`0 ≤ i < n` addresses `i`; `-n ≤ i < 0` wraps to `n + i`; anything else
raises `IndexError` (`none`). -/
def pyIndex (n : Nat) (i : Int) : Option Nat :=
  if 0 ≤ i then (if i < (n : Int) then some i.toNat else none)
  else (if 0 ≤ (n : Int) + i then some ((n : Int) + i).toNat else none)

/-- The right-hand value of a Multi-field assignment, tagged with its exact
Python type (`type(value)` dispatch); the payloads carry the per-element
values fed to `_assign_element`. -/
inductive PyValue (α : Type) where
  | vlist : List α → PyValue α
  | vdict : List (PyKey × α) → PyValue α
  | vint : α → PyValue α
  | vstr : α → PyValue α
  | vbool : α → PyValue α
  | vfloat : α → PyValue α
deriving DecidableEq, Repr

/-- Failures of `PageElements.__set__`: a propagated resolution failure or
the `ValueError` raised on an unsupported value shape. -/
inductive SetErr where
  | find : FindErr → SetErr
  | valueError
deriving DecidableEq, Repr

/-- The writes performed by the dict branch: for each item in order,
`int(k)` then `elements[int(k)]`; conversion or index failures are logged
and skipped. -/
def dictWrites {α : Type} (n : Nat) (kvs : List (PyKey × α)) : List (Nat × α) :=
  kvs.filterMap (fun kv =>
    (kv.1.toInt).bind (fun i => (pyIndex n i).map (fun j => (j, kv.2))))

/-- `PageElements.__set__`: returns the ordered list of
(element index, value) assignments performed, or the propagated failure. -/
def pageElements_set {α : Type} (find : Except FindErr (List Handle)) (value : PyValue α) :
    Except SetErr (List (Nat × α)) :=
  match find with
  | .error e => .error (.find e)
  | .ok elements =>
      let n := elements.length
      match value with
      | .vlist vs => .ok ((vs.take n).enum)
      | .vdict kvs => .ok (dictWrites n kvs)
      | .vint v => .ok ((List.range n).map (fun j => (j, v)))
      | .vstr v => .ok ((List.range n).map (fun j => (j, v)))
      | .vbool _ => .error .valueError
      | .vfloat _ => .error .valueError

/-! ### `PageElementDict.__get__` (lines 713-745, cache disabled path)

For each item found in the container, `_get_key` resolves the key (any
exception yields `None`, the item is skipped), `_get_value` resolves the
value elements (any exception yields `(([], None))`, the item is skipped;
a single resolved element is unwrapped, otherwise the list — including the
empty list — is kept), and `result[key] = value` inserts into the dict. -/

/-- The value stored for one dictionary item: `value[0] if len(value) == 1
else value`. -/
inductive ItemValue (V : Type) where
  | one : V → ItemValue V
  | many : List V → ItemValue V
deriving DecidableEq, Repr

/-- The resolution outcomes of one container item: key resolution and
value-elements resolution. -/
structure DictItem (K V : Type) where
  keyRes : Except FindErr K
  valueRes : Except FindErr (List V)

/-- `_get_key` (lines 625-647): the resolved key, or `None` on any
exception. -/
def getKey {K V : Type} (it : DictItem K V) : Option K :=
  match it.keyRes with
  | .ok k => some k
  | .error _ => none

/-- `_get_value` (lines 649-673), projected to the returned value: `None`
on any exception, the single converted element if exactly one matched,
else the (possibly empty) list. -/
def getValue {K V : Type} (it : DictItem K V) : Option (ItemValue V) :=
  match it.valueRes with
  | .error _ => none
  | .ok [v] => some (.one v)
  | .ok vs => some (.many vs)

/-- Python dict assignment `result[key] = value` on an association list. -/
def dictAssign {K V : Type} [DecidableEq K] (m : List (K × V)) (k : K) (v : V) :
    List (K × V) :=
  if m.any (fun kv => kv.1 = k) then
    m.map (fun kv => if kv.1 = k then (k, v) else kv)
  else m ++ [(k, v)]

/-- The item loop of `PageElementDict.__get__`: skip items whose key or
value failed to resolve, insert the rest. -/
def dictGetLoop {K V : Type} [DecidableEq K] (items : List (DictItem K V))
    (acc : List (K × ItemValue V)) : List (K × ItemValue V) :=
  match items with
  | [] => acc
  | it :: rest =>
      match getKey it with
      | none => dictGetLoop rest acc
      | some k =>
          match getValue it with
          | none => dictGetLoop rest acc
          | some v => dictGetLoop rest (dictAssign acc k v)

/-- `PageElementDict.__get__` (cache disabled): `_get_items` yields the
item list, or `[]` when the container or the items cannot be resolved;
then the item loop builds the result dict. -/
def pageElementDict_get {K V : Type} [DecidableEq K]
    (container : Except FindErr (List (DictItem K V))) : List (K × ItemValue V) :=
  let items := match container with | .ok its => its | .error _ => []
  dictGetLoop items []

/-- Membership of a key in an association-list dict. -/
def hasKey {K V : Type} [DecidableEq K] (m : List (K × V)) (k : K) : Bool :=
  m.any (fun kv => kv.1 = k)

/-! ### Templated writes (lines 415-430 and 474-516)

`PageElementTemplate.__set__` solidifies the locator, resolves with no
exception handler, and assigns; `PageElementsTemplate.__set__` does the
same and then runs the identical value-shape dispatch as
`PageElements.__set__`.  Resolution failures propagate in both. -/

/-- `PageElementTemplate.__set__`: resolve the solidified locator (failures
propagate) and assign `value[1]` to the element. -/
def pageElementTemplate_set {α : Type} (find : Except FindErr Handle) (v : α) :
    Except FindErr (Handle × α) :=
  match find with
  | .ok h => .ok (h, v)
  | .error e => .error e

/-- `PageElementsTemplate.__set__`: resolve the solidified locator
(failures propagate) and run the `PageElements` value-shape dispatch on
`value[1]`. -/
def pageElementsTemplate_set {α : Type} (find : Except FindErr (List Handle))
    (value : PyValue α) : Except SetErr (List (Nat × α)) :=
  match find with
  | .error e => .error (.find e)
  | .ok elements =>
      let n := elements.length
      match value with
      | .vlist vs => .ok ((vs.take n).enum)
      | .vdict kvs => .ok (dictWrites n kvs)
      | .vint v => .ok ((List.range n).map (fun j => (j, v)))
      | .vstr v => .ok ((List.range n).map (fun j => (j, v)))
      | .vbool _ => .error .valueError
      | .vfloat _ => .error .valueError

/-! ### `PageElementDict.__set__` (lines 747-776, cache disabled path)

The items come from `_get_items`, whose `try/except Exception` turns a
container or item resolution failure into the empty item list — so the
write loop simply never runs and the failure is swallowed.  Per item the
loop skips items whose key failed to resolve or is absent from the payload;
for a matched key `_set_value` re-resolves the value elements with no
handler, so a value-resolution failure there propagates. -/

/-- Python `value[key]` on the write payload (`key in value` plus the
lookup). -/
def lookupK {K α : Type} [DecidableEq K] (value : List (K × α)) (k : K) : Option α :=
  match value with
  | [] => none
  | kv :: rest => if kv.1 = k then some kv.2 else lookupK rest k

/-- The item loop of `PageElementDict.__set__`: skip unresolved or
unmatched keys; on a matched key, `_set_value` re-resolves the value
elements (propagating failure) and assigns.  Returns the (key, payload)
writes performed. -/
def dictSetLoop {K V α : Type} [DecidableEq K] (value : List (K × α)) :
    List (DictItem K V) → List (K × α) → Except FindErr (List (K × α))
  | [], writes => .ok writes
  | it :: rest, writes =>
      match getKey it with
      | none => dictSetLoop value rest writes
      | some k =>
          match lookupK value k with
          | none => dictSetLoop value rest writes
          | some v =>
              match it.valueRes with
              | .error e => .error e
              | .ok _ => dictSetLoop value rest (writes ++ [(k, v)])

/-- `PageElementDict.__set__` (cache disabled): `_get_items` swallows any
container/item resolution failure into `[]`, then the item loop writes the
matched keys. -/
def pageElementDict_set {K V α : Type} [DecidableEq K]
    (container : Except FindErr (List (DictItem K V))) (value : List (K × α)) :
    Except FindErr (List (K × α)) :=
  let items := match container with | .ok its => its | .error _ => []
  dictSetLoop value items []

/-! ## Concrete instances used by counterexamples and witnesses -/

/-- A displayed but disabled handle (stale by the liveness probe). -/
def disabledHandle : Handle := ⟨false, true, false⟩

/-- A live handle: enabled, displayed, attached. -/
def liveHandle : Handle := ⟨true, true, false⟩

/-- A cached dict entry whose first value holds a disabled handle and whose
second (last-probed) value holds a live handle; hash 7. -/
def dictEntryBadFirst : CachedElement :=
  ⟨CacheElems.dict [("a", DictVal.one disabledHandle), ("b", DictVal.one liveHandle)], 7⟩

/-- The same dict entry with the two values in the opposite order. -/
def dictEntryBadLast : CachedElement :=
  ⟨CacheElems.dict [("b", DictVal.one liveHandle), ("a", DictVal.one disabledHandle)], 7⟩

/-- A cache whose page id is `3` holding `dictEntryBadFirst` at one key. -/
def dictCache : PageElementCache := ⟨3, [((none, ("id", "table")), dictEntryBadFirst)]⟩

/-- A cache whose page id is `0` holding one live single-handle entry. -/
def staleDemoCache : PageElementCache :=
  ⟨0, [((some 1, ("id", "x")), ⟨CacheElems.single liveHandle, 5⟩)]⟩

/-! ## Theorems -/

/-- C5 counterexample: the claim says writing the same boolean value twice
in a row results in exactly one click total; starting from a checkbox that
is already selected and writing `true` twice performs zero clicks, not
exactly one. -/
theorem C5_counterexample_zero_clicks :
    (setCheckboxTwice true true).2 = 0 ∧ ¬ (setCheckboxTwice true true).2 = 1 := by
  decide

/-- C5 (amended): a checkbox write clicks if and only if the desired value
differs from the current selected-state, and writing the same boolean value
twice in a row results in at most one click total — exactly one when the
initial state differs from the value, zero when it already equals it. -/
theorem C5_checkbox_click_iff_differs :
    ∀ s v : Bool,
      ((set_element_checkbox s v).2 = 1 ↔ s ≠ v)
        ∧ (set_element_checkbox s v).2 = (if s = v then 0 else 1)
        ∧ (setCheckboxTwice s v).2 = (if s = v then 0 else 1)
        ∧ (setCheckboxTwice s v).2 ≤ 1 := by
  decide

/-- C6: writing `false` to a radio element never triggers a click, and
writing `true` to a not-already-selected radio triggers exactly one
click. -/
theorem C6_radio_false_noop_true_clicks :
    ∀ s : Bool,
      (set_element_radio s false).2 = 0 ∧ (set_element_radio false true).2 = 1 := by
  decide

/-- C3: when the observed root-document identity differs from the one
captured at construction or last reset, a read clears the whole cache,
returns a miss, and re-stamps the page id; a write clears the whole cache
before storing, so the resulting map holds only the entry just written —
no previously cached handle survives either call. -/
theorem C3_root_identity_change_cold_miss (c : PageElementCache) (observed : Int)
    (key : CacheKey) (hash : Int) (els : CacheElems)
    (h : c.page_stale observed = true) :
    (c.read observed key hash).1 = none
      ∧ (c.read observed key hash).2.cache = []
      ∧ (c.read observed key hash).2.current_page_id = observed
      ∧ (c.write observed key hash els).cache = [(key, ⟨els, hash⟩)] := by
  unfold PageElementCache.read PageElementCache.write PageElementCache.reset
  simp [h, cacheInsert]

/-- Witness for C3 at a concrete cache: page id `0`, observed id `1`. -/
theorem C3_root_identity_change_cold_miss_witness :
    staleDemoCache.page_stale 1 = true
      ∧ (staleDemoCache.read 1 (some 1, ("id", "x")) 5).1 = none
      ∧ (staleDemoCache.read 1 (some 1, ("id", "x")) 5).2.cache = []
      ∧ (staleDemoCache.write 1 (some 1, ("id", "x")) 5
          (CacheElems.single liveHandle)).cache
          = [((some 1, ("id", "x")), ⟨CacheElems.single liveHandle, 5⟩)] := by
  have h := C3_root_identity_change_cold_miss staleDemoCache 1 (some 1, ("id", "x")) 5
    (CacheElems.single liveHandle) (by decide)
  exact ⟨by decide, h.1, h.2.1, h.2.2.2⟩

/-- C4: the dict branch of `CachedElement.is_stale` re-assigns `stale` on
every dict value, so only the last-probed value decides the result.  With a
disabled handle under the first key and a live handle under the second, the
single stored handle is stale by the probe, yet the entry is reported
fresh, stays in the cache, and the read returns the previously cached
handles — contradicting the all-or-nothing invalidation the claim states.
Reversing the two keys flips the verdict, showing the order dependence. -/
theorem C4_dict_entry_not_all_or_nothing :
    disabledHandle.probeStale = true
      ∧ dictEntryBadFirst.is_stale 7 = false
      ∧ dictEntryBadLast.is_stale 7 = true
      ∧ (dictCache.read 3 (none, ("id", "table")) 7).1 = some dictEntryBadFirst.elements
      ∧ (dictCache.read 3 (none, ("id", "table")) 7).2 = dictCache := by
  decide

/-- The query loop with `once=False` never short-circuits and accumulates
every matching converted row in order. -/
lemma queryLoop_false_eq {σ ρ : Type} (conv : σ → ρ) (conds : List (ρ → Bool)) :
    ∀ (rows : List σ) (result : List ρ),
      queryLoop false conv conds rows result
        = QueryResult.many (result ++ (rows.map conv).filter (matchesRow conds)) := by
  intro rows
  induction rows with
  | nil => intro result; simp [queryLoop]
  | cons r rs ih =>
      intro result
      by_cases h : matchesRow conds (conv r) = true
      · simp [queryLoop, h, ih, List.filter_cons]
      · simp [queryLoop, eq_false_of_ne_true h, ih, List.filter_cons]

/-- The query loop with `once=True`, started from the empty result list,
returns the first matching converted row (or `none`). -/
lemma queryLoop_true_eq {σ ρ : Type} (conv : σ → ρ) (conds : List (ρ → Bool)) :
    ∀ rows : List σ,
      queryLoop true conv conds rows []
        = QueryResult.one ((rows.map conv).find? (matchesRow conds)) := by
  intro rows
  induction rows with
  | nil => simp [queryLoop]
  | cons r rs ih =>
      by_cases h : matchesRow conds (conv r) = true
      · simp [queryLoop, h, List.find?_cons]
      · simp [queryLoop, eq_false_of_ne_true h, ih, List.find?_cons]

/-- C1: `query(once=False)` returns the full ordered list of matching rows
(the empty list when none match); `query(once=True)` returns the first
matching row in DOM order (a null result when none match); and when a row
matches, the `once=True` result never depends on the rows after it — no
further row is resolved beyond the first match. -/
theorem C1_query_first_match_and_all_matches (σ ρ : Type) (conv : σ → ρ)
    (conds : List (ρ → Bool)) :
    (∀ rows : List σ,
        PageTable.query false conv conds rows
          = QueryResult.many ((rows.map conv).filter (matchesRow conds)))
      ∧ (∀ rows : List σ,
        PageTable.query true conv conds rows
          = QueryResult.one ((rows.map conv).find? (matchesRow conds)))
      ∧ (∀ (pre : List σ) (r : σ) (s₁ s₂ : List σ),
          matchesRow conds (conv r) = true →
            PageTable.query true conv conds (pre ++ r :: s₁)
              = PageTable.query true conv conds (pre ++ r :: s₂)) := by
  refine ⟨fun rows => queryLoop_false_eq conv conds rows [],
    fun rows => queryLoop_true_eq conv conds rows, ?_⟩
  intro pre r s₁ s₂ h
  unfold PageTable.query
  rw [queryLoop_true_eq, queryLoop_true_eq]
  simp [List.find?_append, List.find?_cons, h]

/-- Witness for C1: a concrete table of naturals where the first match is
row `2`; the `once=True` result is the same whatever follows it. -/
theorem C1_query_first_match_witness :
    PageTable.query true (fun n : Nat => n) [fun x => x == 2] ([1] ++ 2 :: [3])
      = PageTable.query true (fun n : Nat => n) [fun x => x == 2] ([1] ++ 2 :: [9, 10]) :=
  (C1_query_first_match_and_all_matches Nat Nat (fun n => n) [fun x => x == 2]).2.2
    [1] 2 [3] [9, 10] (by decide)

/-- The apply loop with an empty `result` list never takes the `once`
break (the break tests `result`, which `apply` never populates), so the
action is invoked on every matching row. -/
lemma applyLoop_result_nil {σ ρ : Type} (once : Bool) (conv : σ → ρ)
    (conds : List (ρ → Bool)) :
    ∀ (rows : List σ) (invoked : List ρ),
      applyLoop once conv conds rows [] invoked
        = invoked ++ (rows.map conv).filter (matchesRow conds) := by
  intro rows
  induction rows with
  | nil => intro invoked; simp [applyLoop]
  | cons r rs ih =>
      intro invoked
      by_cases h : matchesRow conds (conv r) = true
      · simp [applyLoop, h, ih, List.filter_cons]
      · simp [applyLoop, eq_false_of_ne_true h, ih, List.filter_cons]

/-- C2: `apply` uses the same matching algorithm as `query` and invokes the
action on every matching row — but the `once=True` break is dead code
(it tests the never-populated `result` list), so with two matching rows and
`once=True` the action is invoked on both rows, not exactly one. -/
theorem C2_apply_once_break_is_dead :
    (∀ (σ ρ : Type) (once : Bool) (conv : σ → ρ) (conds : List (ρ → Bool))
        (rows : List σ),
        PageTable.apply once conv conds rows
          = (rows.map conv).filter (matchesRow conds))
      ∧ PageTable.apply true (fun n : Nat => n) [] [1, 2] = [1, 2]
      ∧ (PageTable.apply true (fun n : Nat => n) [] [1, 2]).length ≠ 1 := by
  refine ⟨?_, by decide, by decide⟩
  intro σ ρ once conv conds rows
  unfold PageTable.apply
  rw [applyLoop_result_nil]
  simp

/-- C7 counterexample: the claim says a write to a nonexistent element
never swallows the failure — but a Dictionary write whose container fails
to resolve (here: `NotFound`) returns successfully with no writes
performed, because `_get_items` catches the failure and yields an empty
item list; the result is the non-raising `ok []`, not the propagated
error. -/
theorem C7_counterexample_dict_write_swallows :
    pageElementDict_set (K := Nat) (V := Nat) (Except.error FindErr.notFound)
        [(1, true)] = Except.ok []
      ∧ (Except.ok [] : Except FindErr (List (Nat × Bool)))
          ≠ Except.error FindErr.notFound := by
  exact ⟨rfl, fun h => Except.noConfusion h⟩

/-- C7 (amended): a resolution failure (Timeout, NotFound, or any
driver-level failure) during a read yields a null result for Single and
Templated fields, the empty list for Multi fields, and the empty mapping
for Dictionary fields; the same failure during a Single, Multi, or
Templated (single or array) write is not swallowed and propagates to the
caller — but a Dictionary write whose container or items fail to resolve
swallows the failure and silently performs no writes. -/
theorem C7_read_write_propagation_per_variant (V α : Type) (e : FindErr)
    (convert : Handle → V) (v : α) (value : PyValue α) (wv : List (Nat × α)) :
    pageElement_get (Except.error e) convert = none
      ∧ pageElementTemplate_get (Except.error e) convert = none
      ∧ pageElements_get (Except.error e) convert = []
      ∧ pageElementDict_get (K := Nat) (V := V) (Except.error e) = []
      ∧ pageElement_set (Except.error e) v = Except.error e
      ∧ pageElements_set (Except.error e) value = Except.error (SetErr.find e)
      ∧ pageElementTemplate_set (Except.error e) v = Except.error e
      ∧ pageElementsTemplate_set (Except.error e) value = Except.error (SetErr.find e)
      ∧ pageElementDict_set (K := Nat) (V := V) (Except.error e) wv = Except.ok [] := by
  exact ⟨rfl, rfl, rfl, rfl, rfl, rfl, rfl, rfl, rfl⟩

/-- A successful Python index always addresses a real element:
`pyIndex n i = some j` forces `j < n`. -/
lemma pyIndex_lt {n : Nat} {i : Int} {j : Nat} (h : pyIndex n i = some j) : j < n := by
  unfold pyIndex at h
  split at h <;> split at h <;> simp_all <;> omega

/-- Membership in the dict-branch write list: a write at position `j` with
value `v` happens exactly when some payload item carries `v` under a key
whose `int(...)` conversion succeeds and indexes to `j`. -/
lemma mem_dictWrites {α : Type} {n : Nat} {kvs : List (PyKey × α)} {j : Nat} {v : α} :
    (j, v) ∈ dictWrites n kvs
      ↔ ∃ k, (k, v) ∈ kvs ∧ ∃ i, PyKey.toInt k = some i ∧ pyIndex n i = some j := by
  unfold dictWrites
  rw [List.mem_filterMap]
  constructor
  · rintro ⟨⟨k, w⟩, hmem, heq⟩
    simp only [Option.bind_eq_some, Option.map_eq_some'] at heq
    obtain ⟨i, hk, j', hj, hpair⟩ := heq
    obtain ⟨h1, h2⟩ := Prod.mk.injEq .. ▸ hpair
    exact ⟨k, h2 ▸ hmem, i, hk, h1 ▸ hj⟩
  · rintro ⟨k, hmem, i, hk, hj⟩
    refine ⟨(k, v), hmem, ?_⟩
    simp [hk, hj]

/-- C8: a Multi-field write of a sequence performs the positional zip with
the resolved elements — a write happens at position `j` with value `v`
exactly when `j` is within both the elements and the sequence (shorter side
wins); a dict write never raises and writes exactly at the
integer-convertible, in-range (Python-indexing) keys, every performed write
staying within the element array and all other keys dropped; any other
value shape (here: a float scalar) raises the ValueError condition. -/
theorem C8_multi_write_value_shapes (α : Type) (els : List Handle) (vs : List α)
    (kvs : List (PyKey × α)) (x : α) :
    pageElements_set (Except.ok els) (PyValue.vlist vs)
        = Except.ok ((vs.take els.length).enum)
      ∧ (∀ (j : Nat) (v : α), (j, v) ∈ (vs.take els.length).enum
          ↔ j < els.length ∧ vs[j]? = some v)
      ∧ pageElements_set (Except.ok els) (PyValue.vdict kvs)
          = Except.ok (dictWrites els.length kvs)
      ∧ (∀ (j : Nat) (v : α), (j, v) ∈ dictWrites els.length kvs
          ↔ ∃ k, (k, v) ∈ kvs
              ∧ ∃ i, PyKey.toInt k = some i ∧ pyIndex els.length i = some j)
      ∧ (∀ (j : Nat) (v : α), (j, v) ∈ dictWrites els.length kvs → j < els.length)
      ∧ pageElements_set (Except.ok els) (PyValue.vfloat x)
          = Except.error SetErr.valueError := by
  refine ⟨rfl, ?_, rfl, fun j v => mem_dictWrites, ?_, rfl⟩
  · intro j v
    rw [List.mem_enum_iff_getElem?, List.getElem?_take]
    constructor
    · intro h
      split at h
      · exact ⟨by omega, h⟩
      · exact absurd h (by simp)
    · intro ⟨hj, h⟩
      simp [hj, h]
  · intro j v h
    obtain ⟨k, _, i, _, hj⟩ := mem_dictWrites.mp h
    exact pyIndex_lt hj

/-- Witness for C8 at the spec's scenario: three resolved elements written
with `{1: True}` produce exactly the one write `(1, True)`, and `{5: True}`
produces no write and no error. -/
theorem C8_multi_write_value_shapes_witness :
    pageElements_set (Except.ok [liveHandle, liveHandle, liveHandle])
        (PyValue.vdict [(PyKey.kint 1, true)])
        = Except.ok (dictWrites 3 [(PyKey.kint 1, true)])
      ∧ dictWrites 3 [(PyKey.kint 1, (true : Bool))] = [(1, true)]
      ∧ dictWrites 3 [(PyKey.kint 5, (true : Bool))] = [] := by
  have h := C8_multi_write_value_shapes Bool [liveHandle, liveHandle, liveHandle] []
    [(PyKey.kint 1, true)] true
  exact ⟨h.2.2.1, by decide, by decide⟩

/-- Whether an item yields a key equal to `k` together with a resolved
value (the condition for the item loop to insert at `k`). -/
def itemYields {K V : Type} [DecidableEq K] (it : DictItem K V) (k : K) : Bool :=
  (decide (getKey it = some k)) && (getValue it).isSome

/-- `dictAssign` adds exactly the assigned key to the key set. -/
lemma hasKey_dictAssign {K V : Type} [DecidableEq K] (m : List (K × V)) (k' k : K)
    (v : V) : hasKey (dictAssign m k' v) k = true ↔ (hasKey m k = true ∨ k' = k) := by
  unfold dictAssign hasKey
  by_cases hmem : (m.any fun kv => decide (kv.1 = k')) = true
  · rw [if_pos hmem, List.any_map]
    simp only [List.any_eq_true, Function.comp, decide_eq_true_eq, Bool.or_eq_true]
    constructor
    · rintro ⟨kv, hkv, hp⟩
      by_cases h : kv.1 = k'
      · rw [if_pos h] at hp
        exact Or.inr hp
      · rw [if_neg h] at hp
        exact Or.inl ⟨kv, hkv, hp⟩
    · rintro (⟨kv, hkv, hp⟩ | hp)
      · by_cases h : kv.1 = k'
        · refine ⟨kv, hkv, ?_⟩
          rw [if_pos h]
          rw [h] at hp
          exact hp
        · refine ⟨kv, hkv, ?_⟩
          rw [if_neg h]
          exact hp
      · obtain ⟨kv, hkv, hk1⟩ := List.any_eq_true.mp hmem
        simp only [decide_eq_true_eq] at hk1
        refine ⟨kv, hkv, ?_⟩
        rw [if_pos hk1]
        exact hp
  · rw [if_neg hmem]
    simp [List.any_append]

/-- The item loop inserts exactly the keys of the already-accumulated dict
and of the items that yield both a key and a value. -/
lemma hasKey_dictGetLoop {K V : Type} [DecidableEq K] (items : List (DictItem K V)) :
    ∀ (acc : List (K × ItemValue V)) (k : K),
      hasKey (dictGetLoop items acc) k = true
        ↔ (hasKey acc k = true ∨ items.any (fun it => itemYields it k) = true) := by
  induction items with
  | nil =>
      intro acc k
      simp [dictGetLoop]
  | cons it rest ih =>
      intro acc k
      unfold dictGetLoop
      cases hk : getKey it with
      | none =>
          rw [ih]
          simp [List.any_cons, itemYields, hk]
      | some k' =>
          cases hv : getValue it with
          | none =>
              rw [ih]
              simp [List.any_cons, itemYields, hk, hv]
          | some v =>
              rw [ih, hasKey_dictAssign]
              simp only [List.any_cons, itemYields, hk, hv, Option.isSome_some,
                Bool.and_true, Bool.or_eq_true, decide_eq_true_eq,
                Option.some.injEq]
              tauto

/-- `getKey` succeeds with `k` exactly when the key resolution returned
`k`. -/
lemma getKey_eq_some_iff {K V : Type} (it : DictItem K V) (k : K) :
    getKey it = some k ↔ it.keyRes = Except.ok k := by
  unfold getKey
  cases it.keyRes <;> simp

/-- `getValue` succeeds exactly when the value-elements resolution
succeeded (with any list, including the empty one). -/
lemma getValue_isSome_iff {K V : Type} (it : DictItem K V) :
    (getValue it).isSome = true ↔ ∃ vs, it.valueRes = Except.ok vs := by
  unfold getValue
  cases hv : it.valueRes with
  | error e => simp
  | ok vs => rcases vs with _ | ⟨v, _ | ⟨w, rest⟩⟩ <;> simp

/-- C9: a Dictionary-field read never raises (it is a total projection),
and the key set of the returned mapping is exactly the set of keys of items
for which both the key and the value resolved; items failing either
resolution are dropped. -/
theorem C9_dict_read_key_set (K V : Type) [DecidableEq K]
    (items : List (DictItem K V)) (k : K) :
    hasKey (pageElementDict_get (Except.ok items)) k = true
      ↔ ∃ it ∈ items, it.keyRes = Except.ok k ∧ ∃ vs, it.valueRes = Except.ok vs := by
  unfold pageElementDict_get
  rw [hasKey_dictGetLoop]
  have hacc : hasKey (K := K) (V := ItemValue V) [] k = false := rfl
  rw [hacc]
  simp only [Bool.false_eq_true, false_or, List.any_eq_true, itemYields,
    Bool.and_eq_true, decide_eq_true_eq]
  constructor
  · rintro ⟨it, hit, hk, hv⟩
    exact ⟨it, hit, (getKey_eq_some_iff it k).mp hk, (getValue_isSome_iff it).mp hv⟩
  · rintro ⟨it, hit, hk, hv⟩
    exact ⟨it, hit, (getKey_eq_some_iff it k).mpr hk, (getValue_isSome_iff it).mpr hv⟩

/-- C10 (implicit): the `type(value) in (int, str)` dispatch of the Multi
write accepts scalar broadcast only for values whose type is exactly `int`
or `str`; a scalar `bool` (or `float`) raises the ValueError condition,
even though the per-element checkbox rule consumes boolean values (and
always leaves the checkbox in the written state). -/
theorem C10_scalar_broadcast_exact_types (α : Type) (els : List Handle) (x : α) :
    pageElements_set (Except.ok els) (PyValue.vbool x) = Except.error SetErr.valueError
      ∧ pageElements_set (Except.ok els) (PyValue.vfloat x) = Except.error SetErr.valueError
      ∧ pageElements_set (Except.ok els) (PyValue.vint x)
          = Except.ok ((List.range els.length).map (fun j => (j, x)))
      ∧ pageElements_set (Except.ok els) (PyValue.vstr x)
          = Except.ok ((List.range els.length).map (fun j => (j, x)))
      ∧ ((List.range els.length).map (fun j => (j, x))).length = els.length
      ∧ ∀ s v : Bool, (set_element_checkbox s v).1 = v := by
  refine ⟨rfl, rfl, rfl, rfl, by simp, by decide⟩

end PageObj
